import Mathlib

/-!
Shallow embedding of the student-records application
(`src/controllers/admin_controller.py` and the flet views), together with
proofs of the behavioural properties stated in the specification.

The model layer (`src/models/student.py`, `src/models/subject.py`,
`src/models/database.py`), the non-admin controllers and `src/core/constants.py`
are not part of the available sources; the definitions that stand in for them
are modelled from the specification and are marked as such in their doc
comments.  Marks are modelled as rationals (`ℚ`), standing in for the numeric
marks of the program.
-/

namespace StudentApp

/-- Modelled from the spec: a `Subject` value entity — id, mark, derived
grade letter (`src/models/subject.py` is absent from the sources). -/
structure Subject where
  id : String
  mark : ℚ
  grade : String
deriving DecidableEq

/-- Modelled from the spec: a `Student` aggregate entity — identity,
credentials, ordered collection of subjects (`src/models/student.py` is absent
from the sources). -/
structure Student where
  id : String
  name : String
  email : String
  password : String
  subjects : List Subject
deriving DecidableEq

/-- Modelled from the spec: `Student.get_average_mark` — the arithmetic mean
of the subject marks, `0` if the student has no subjects. -/
def get_average_mark (s : Student) : ℚ :=
  if s.subjects.isEmpty then 0
  else (s.subjects.map Subject.mark).sum / s.subjects.length

/-- Modelled from the spec: `Student.is_passing` — average mark at least 50. -/
def is_passing (s : Student) : Bool :=
  decide (50 ≤ get_average_mark s)

/-- `AdminController._get_grade_from_mark`
(src/controllers/admin_controller.py, lines 33–44). -/
def get_grade_from_mark (mark : ℚ) : String :=
  if mark ≥ 85 then "HD"
  else if mark ≥ 75 then "D"
  else if mark ≥ 65 then "C"
  else if mark ≥ 50 then "P"
  else "Z"

/-- The grade assigned to a student: the grade derived from the average mark,
as computed in `group_students` (admin_controller.py, lines 56–57). -/
def student_grade (s : Student) : String :=
  get_grade_from_mark (get_average_mark s)

/-- C1: the grade derivation function is total and deterministic; it returns
exactly one of HD/D/C/P/Z, with HD iff the mark is at least 85, D iff it lies
in [75,85), C iff it lies in [65,75), P iff it lies in [50,65) and Z iff it is
below 50. -/
theorem get_grade_from_mark_spec (m : ℚ) :
    (get_grade_from_mark m = "HD" ↔ 85 ≤ m) ∧
    (get_grade_from_mark m = "D" ↔ 75 ≤ m ∧ m < 85) ∧
    (get_grade_from_mark m = "C" ↔ 65 ≤ m ∧ m < 75) ∧
    (get_grade_from_mark m = "P" ↔ 50 ≤ m ∧ m < 65) ∧
    (get_grade_from_mark m = "Z" ↔ m < 50) ∧
    (get_grade_from_mark m = "HD" ∨ get_grade_from_mark m = "D" ∨
      get_grade_from_mark m = "C" ∨ get_grade_from_mark m = "P" ∨
      get_grade_from_mark m = "Z") := by
  unfold get_grade_from_mark
  split_ifs with h1 h2 h3 h4 <;>
    refine ⟨?_, ?_, ?_, ?_, ?_, ?_⟩ <;>
    simp_all <;> (intros; linarith)

/-- A call made by a controller or event handler on the view layer
(`display_error`, `display_success` and the data-specific renderers of the
base-view interface). -/
inductive Event where
  | displayError (msg : String)
  | displaySuccess (msg : String)
  | displayGradeGroups (groups : List (String × List Student))
  | displayPartitioned (passing failing : List Student)
  | displayAllStudents (students : List Student)
  | displayEnrolmentResult (subj : Subject)
deriving DecidableEq

/-- The comparison used by `list.sort(key=lambda s: s.get_average_mark(),
reverse=True)`: `a` may come before `b` when `b`'s average is at most `a`'s.
Python's sort is stable, which `List.insertionSort` matches. -/
def rAvg (a b : Student) : Prop :=
  get_average_mark b ≤ get_average_mark a

instance : DecidableRel rAvg := fun a b =>
  inferInstanceAs (Decidable (get_average_mark b ≤ get_average_mark a))

instance : IsTotal Student rAvg :=
  ⟨fun a b => (le_total (get_average_mark b) (get_average_mark a)).imp id id⟩

instance : IsTrans Student rAvg :=
  ⟨fun _ _ _ h1 h2 => le_trans h2 h1⟩

/-- One step of building the `grade_groups` dict of `group_students`
(admin_controller.py, lines 59–61): append the student to the bucket of its
grade, creating the bucket at the end on first use — the insertion-ordered
behaviour of a Python dict. -/
def addToGroup : List (String × List Student) → String → Student →
    List (String × List Student)
  | [], g, s => [(g, [s])]
  | (k, l) :: rest, g, s =>
      if k = g then (k, l ++ [s]) :: rest
      else (k, l) :: addToGroup rest g s

/-- The `grade_groups` dict of `group_students` after the first loop
(admin_controller.py, lines 54–61). -/
def build_grade_groups (students : List Student) : List (String × List Student) :=
  students.foldl (fun gg s => addToGroup gg (student_grade s) s) []

/-- `AdminController.group_students` (admin_controller.py, lines 46–70),
as a function of the loaded student list, returning the view calls it makes.
The in-bucket sort is Python's stable `list.sort` with `reverse=True`. -/
def group_students (students : List Student) : List Event :=
  if students.isEmpty then [Event.displayError "No students found"]
  else
    let groups := (build_grade_groups students).map
      (fun gl => (gl.1, List.insertionSort rAvg gl.2))
    [Event.displayGradeGroups groups]

/-- `AdminController.partition_students` (admin_controller.py, lines 72–86),
as a function of the loaded student list, returning the view calls it makes. -/
def partition_students (students : List Student) : List Event :=
  if students.isEmpty then [Event.displayError "No students found"]
  else
    let passing := List.insertionSort rAvg (students.filter (fun s => is_passing s))
    let failing := List.insertionSort rAvg (students.filter (fun s => !is_passing s))
    [Event.displayPartitioned passing failing]

/-- Lookup of a bucket by key in the association-list model of the dict;
`[]` when the key is absent. -/
def lookupGroup : List (String × List Student) → String → List Student
  | [], _ => []
  | (k, l) :: rest, g => if k = g then l else lookupGroup rest g

theorem lookupGroup_addToGroup (gg : List (String × List Student))
    (g : String) (s : Student) (k : String) :
    lookupGroup (addToGroup gg g s) k =
      if k = g then lookupGroup gg k ++ [s] else lookupGroup gg k := by
  induction gg with
  | nil =>
      by_cases hk : k = g
      · subst hk
        simp [addToGroup, lookupGroup]
      · have hk2 : ¬ g = k := fun h => hk h.symm
        simp [addToGroup, lookupGroup, hk, hk2]
  | cons hd tl ih =>
      obtain ⟨k', l⟩ := hd
      by_cases hk' : k' = g
      · subst hk'
        by_cases hk : k' = k
        · subst hk
          simp [addToGroup, lookupGroup]
        · have hk2 : ¬ k = k' := fun h => hk h.symm
          simp [addToGroup, lookupGroup, hk, hk2]
      · by_cases hk : k' = k
        · subst hk
          have hk2 : ¬ k' = g := hk'
          simp [addToGroup, lookupGroup, hk2]
        · simp [addToGroup, lookupGroup, hk', hk, ih]

theorem lookupGroup_foldl (students : List Student)
    (acc : List (String × List Student)) (k : String) :
    lookupGroup (students.foldl (fun gg s => addToGroup gg (student_grade s) s) acc) k =
      lookupGroup acc k ++ students.filter (fun s => decide (student_grade s = k)) := by
  induction students generalizing acc with
  | nil => simp
  | cons s rest ih =>
      simp only [List.foldl_cons, ih, lookupGroup_addToGroup, List.filter_cons]
      by_cases hk : student_grade s = k
      · rw [if_pos hk.symm]
        simp [hk, List.append_assoc]
      · have hk2 : ¬ k = student_grade s := fun h => hk h.symm
        rw [if_neg hk2]
        simp [hk]

theorem lookupGroup_build (students : List Student) (k : String) :
    lookupGroup (build_grade_groups students) k =
      students.filter (fun s => decide (student_grade s = k)) := by
  simpa [build_grade_groups, lookupGroup] using
    lookupGroup_foldl students [] k

theorem mem_keys_addToGroup {gg : List (String × List Student)}
    {g x : String} {s : Student}
    (hx : x ∈ (addToGroup gg g s).map Prod.fst) :
    x ∈ gg.map Prod.fst ∨ x = g := by
  induction gg with
  | nil => exact Or.inr (by simpa [addToGroup] using hx)
  | cons hd tl ih =>
      obtain ⟨k', l⟩ := hd
      by_cases hk' : k' = g
      · exact Or.inl (by simpa [addToGroup, hk'] using hx)
      · simp only [addToGroup, if_neg hk', List.map_cons, List.mem_cons] at hx
        rcases hx with h | h
        · exact Or.inl (by simp [h])
        · rcases ih h with h' | h'
          · exact Or.inl (by simp [h'])
          · exact Or.inr h'

theorem nodup_keys_addToGroup {gg : List (String × List Student)}
    {g : String} {s : Student} (hg : (gg.map Prod.fst).Nodup) :
    ((addToGroup gg g s).map Prod.fst).Nodup := by
  induction gg with
  | nil => simp [addToGroup]
  | cons hd tl ih =>
      obtain ⟨k', l⟩ := hd
      simp only [List.map_cons, List.nodup_cons] at hg
      by_cases hk' : k' = g
      · subst hk'
        have heq : addToGroup ((k', l) :: tl) k' s = (k', l ++ [s]) :: tl := by
          simp [addToGroup]
        rw [heq, List.map_cons, List.nodup_cons]
        exact ⟨hg.1, hg.2⟩
      · simp only [addToGroup, if_neg hk', List.map_cons]
        refine List.nodup_cons.mpr ⟨?_, ih hg.2⟩
        intro hmem
        rcases mem_keys_addToGroup hmem with h | h
        · exact hg.1 h
        · exact hk' h

theorem nodup_keys_foldl (students : List Student)
    (acc : List (String × List Student)) (hacc : (acc.map Prod.fst).Nodup) :
    (((students.foldl (fun gg s => addToGroup gg (student_grade s) s) acc)).map
      Prod.fst).Nodup := by
  induction students generalizing acc with
  | nil => simpa using hacc
  | cons s rest ih => exact ih _ (nodup_keys_addToGroup hacc)

theorem nodup_keys_build (students : List Student) :
    ((build_grade_groups students).map Prod.fst).Nodup :=
  nodup_keys_foldl students [] (by simp)

theorem snd_eq_lookupGroup {gg : List (String × List Student)}
    (hg : (gg.map Prod.fst).Nodup) {p : String × List Student} (hp : p ∈ gg) :
    p.2 = lookupGroup gg p.1 := by
  induction gg with
  | nil => cases hp
  | cons hd tl ih =>
      obtain ⟨k', l⟩ := hd
      simp only [List.map_cons, List.nodup_cons] at hg
      rcases List.mem_cons.mp hp with h | h
      · subst h
        simp [lookupGroup]
      · have hk : k' ≠ p.1 := by
          intro hk
          exact hg.1 (hk ▸ List.mem_map.mpr ⟨p, h, rfl⟩)
        simp only [lookupGroup, if_neg hk]
        exact ih hg.2 h

theorem join_addToGroup (gg : List (String × List Student))
    (g : String) (s : Student) :
    ((addToGroup gg g s).map Prod.snd).flatten.Perm
      ((gg.map Prod.snd).flatten ++ [s]) := by
  induction gg with
  | nil => simp [addToGroup]
  | cons hd tl ih =>
      obtain ⟨k', l⟩ := hd
      by_cases hk' : k' = g
      · simp only [addToGroup, if_pos hk', List.map_cons, List.flatten_cons]
        rw [List.append_assoc, List.append_assoc]
        exact List.Perm.append_left l List.perm_append_comm
      · simp only [addToGroup, if_neg hk', List.map_cons, List.flatten_cons]
        rw [List.append_assoc]
        exact List.Perm.append_left l ih

theorem join_foldl (students : List Student)
    (acc : List (String × List Student)) :
    (((students.foldl (fun gg s => addToGroup gg (student_grade s) s) acc)).map
      Prod.snd).flatten.Perm ((acc.map Prod.snd).flatten ++ students) := by
  induction students generalizing acc with
  | nil => simp
  | cons s rest ih =>
      simp only [List.foldl_cons]
      have h1 := ih (addToGroup acc (student_grade s) s)
      have h2 := (join_addToGroup acc (student_grade s) s).append_right rest
      have h3 : ((acc.map Prod.snd).flatten ++ [s]) ++ rest =
          (acc.map Prod.snd).flatten ++ (s :: rest) := by simp
      exact h1.trans (h3 ▸ h2)

theorem join_build (students : List Student) :
    ((build_grade_groups students).map Prod.snd).flatten.Perm students := by
  simpa [build_grade_groups, lookupGroup] using join_foldl students []

theorem join_map_sort (gg : List (String × List Student)) :
    ((gg.map (fun gl => (gl.1, List.insertionSort rAvg gl.2))).map
      Prod.snd).flatten.Perm ((gg.map Prod.snd).flatten) := by
  induction gg with
  | nil => simp
  | cons hd tl ih =>
      simp only [List.map_cons, List.flatten_cons]
      exact (List.perm_insertionSort rAvg hd.2).append ih

theorem filter_avg_orderedInsert (q : ℚ) (a : Student) (l : List Student) :
    (List.orderedInsert rAvg a l).filter
        (fun s => decide (get_average_mark s = q)) =
      if get_average_mark a = q then
        a :: l.filter (fun s => decide (get_average_mark s = q))
      else l.filter (fun s => decide (get_average_mark s = q)) := by
  induction l with
  | nil =>
      by_cases hq : get_average_mark a = q <;>
        simp [List.orderedInsert, List.filter, hq]
  | cons b t ih =>
      by_cases hr : rAvg a b
      · by_cases hq : get_average_mark a = q <;>
          simp [List.orderedInsert, if_pos hr, List.filter_cons, hq]
      · have hab : get_average_mark a < get_average_mark b :=
          lt_of_not_le hr
        by_cases hq : get_average_mark a = q
        · have hbq : get_average_mark b ≠ q := by
            intro hb
            rw [hq] at hab
            rw [hb] at hab
            exact lt_irrefl q hab
          simp [List.orderedInsert, if_neg hr, List.filter_cons, hbq, ih, hq]
        · simp only [List.orderedInsert, if_neg hr, List.filter_cons, ih, if_neg hq]

theorem filter_avg_insertionSort (q : ℚ) (l : List Student) :
    (List.insertionSort rAvg l).filter
        (fun s => decide (get_average_mark s = q)) =
      l.filter (fun s => decide (get_average_mark s = q)) := by
  induction l with
  | nil => rfl
  | cons a t ih =>
      simp only [List.insertionSort, filter_avg_orderedInsert, ih,
        List.filter_cons]
      by_cases hq : get_average_mark a = q <;> simp [hq]

theorem bucket_eq_filter (students : List Student)
    {p : String × List Student} (hp : p ∈ build_grade_groups students) :
    p.2 = students.filter (fun s => decide (student_grade s = p.1)) :=
  (snd_eq_lookupGroup (nodup_keys_build students) hp).trans
    (lookupGroup_build students p.1)

/-- C2: on a non-empty student list, `group_students` displays buckets such
that (a) the concatenation of all buckets is a permutation of the input (no
duplication or loss), (b) each bucket holds exactly the students whose derived
grade is the bucket key, (c) each bucket is sorted by descending average mark,
and (d) ties are stable: for every average-mark value, the students of a
bucket with that average form a subsequence of the input list, i.e. they
appear in their original input order. -/
theorem group_students_spec (students : List Student) (h : students ≠ []) :
    ∃ gg, group_students students = [Event.displayGradeGroups gg] ∧
      (gg.map Prod.snd).flatten.Perm students ∧
      (∀ p ∈ gg, ∀ s ∈ p.2, student_grade s = p.1) ∧
      (∀ p ∈ gg, p.2.Sorted rAvg) ∧
      (∀ p ∈ gg, ∀ q : ℚ,
        List.Sublist (p.2.filter (fun s => decide (get_average_mark s = q))) students) := by
  refine ⟨(build_grade_groups students).map
      (fun gl => (gl.1, List.insertionSort rAvg gl.2)), ?_, ?_, ?_, ?_, ?_⟩
  · unfold group_students
    rw [if_neg (by simpa [List.isEmpty_iff] using h)]
  · exact (join_map_sort _).trans (join_build students)
  · intro p hp s hs
    obtain ⟨p', hp', rfl⟩ := List.mem_map.mp hp
    have hmem : s ∈ p'.2 := (List.mem_insertionSort (r := rAvg)).mp hs
    rw [bucket_eq_filter students hp'] at hmem
    exact of_decide_eq_true (List.mem_filter.mp hmem).2
  · intro p hp
    obtain ⟨p', hp', rfl⟩ := List.mem_map.mp hp
    exact List.sorted_insertionSort rAvg p'.2
  · intro p hp q
    obtain ⟨p', hp', rfl⟩ := List.mem_map.mp hp
    have : (p'.1, List.insertionSort rAvg p'.2).2 = List.insertionSort rAvg p'.2 := rfl
    rw [this, filter_avg_insertionSort, bucket_eq_filter students hp']
    exact (List.filter_sublist _).trans (List.filter_sublist _)

/-- C3: on a non-empty student list, `partition_students` displays a passing
and a failing list such that every passing student has average at least 50,
every failing student has average below 50, the two lists together are a
permutation of the input (union equals input, no overlap), the lists are
disjoint, each is sorted by descending average mark, and ties are stable
(equal-average students form a subsequence of the input). -/
theorem partition_students_spec (students : List Student) (h : students ≠ []) :
    ∃ p f, partition_students students = [Event.displayPartitioned p f] ∧
      (∀ s ∈ p, 50 ≤ get_average_mark s) ∧
      (∀ s ∈ f, get_average_mark s < 50) ∧
      (p ++ f).Perm students ∧
      (∀ s ∈ p, s ∉ f) ∧
      p.Sorted rAvg ∧ f.Sorted rAvg ∧
      (∀ q : ℚ, List.Sublist (p.filter (fun s => decide (get_average_mark s = q))) students) ∧
      (∀ q : ℚ, List.Sublist (f.filter (fun s => decide (get_average_mark s = q))) students) := by
  have hpass : ∀ s ∈ List.insertionSort rAvg
      (students.filter (fun s => is_passing s)), 50 ≤ get_average_mark s := by
    intro s hs
    have hmem := (List.mem_insertionSort (r := rAvg)).mp hs
    have := (List.mem_filter.mp hmem).2
    simpa [is_passing] using this
  have hfail : ∀ s ∈ List.insertionSort rAvg
      (students.filter (fun s => !is_passing s)), get_average_mark s < 50 := by
    intro s hs
    have hmem := (List.mem_insertionSort (r := rAvg)).mp hs
    have := (List.mem_filter.mp hmem).2
    have hnot : ¬ 50 ≤ get_average_mark s := by
      simpa [is_passing] using this
    exact lt_of_not_le hnot
  refine ⟨List.insertionSort rAvg (students.filter (fun s => is_passing s)),
      List.insertionSort rAvg (students.filter (fun s => !is_passing s)),
      ?_, hpass, hfail, ?_, ?_, ?_, ?_, ?_, ?_⟩
  · unfold partition_students
    rw [if_neg (by simpa [List.isEmpty_iff] using h)]
  · exact ((List.perm_insertionSort rAvg _).append
      (List.perm_insertionSort rAvg _)).trans (List.filter_append_perm _ students)
  · intro s hs hf
    exact absurd (hpass s hs) (not_le.mpr (hfail s hf))
  · exact List.sorted_insertionSort rAvg _
  · exact List.sorted_insertionSort rAvg _
  · intro q
    rw [filter_avg_insertionSort]
    exact (List.filter_sublist _).trans (List.filter_sublist _)
  · intro q
    rw [filter_avg_insertionSort]
    exact (List.filter_sublist _).trans (List.filter_sublist _)

/-- Modelled from the spec: `Database.remove_student` — deletes the student
with matching id, returning success iff one was found
(`src/models/database.py` is absent from the sources). -/
def db_remove_student (db : List Student) (sid : String) : List Student × Bool :=
  if db.any (fun s => decide (s.id = sid)) then
    (db.filter (fun s => decide (s.id ≠ sid)), true)
  else (db, false)

/-- Modelled from the spec: `Database.add_student` — fails when the email
already exists, otherwise appends the student. -/
def db_add_student (db : List Student) (s : Student) : List Student × Bool :=
  if db.any (fun t => decide (t.email = s.email)) then (db, false)
  else (db ++ [s], true)

/-- Modelled from the spec: `Database.get_student_by_email` — the stored
student with the given email, if any. -/
def db_get_student_by_email (db : List Student) (email : String) :
    Option Student :=
  db.find? (fun s => decide (s.email = email))

/-- Modelled from the spec: `Database.update_student` — persist a mutated
student, replacing the stored student with the same id. -/
def db_update_student (db : List Student) (s : Student) : List Student :=
  db.map (fun t => if t.id = s.id then s else t)

/-- `AdminController.remove_student` (admin_controller.py, lines 88–96), as a
function of the database contents and the chosen id; returns the new
contents, the boolean result and the view calls. -/
def remove_student (db : List Student) (sid : String) :
    List Student × Bool × List Event :=
  let r := db_remove_student db sid
  if r.2 then
    (r.1, true, [Event.displaySuccess ("Student " ++ sid ++ " removed successfully!")])
  else
    (r.1, false, [Event.displayError ("Student " ++ sid ++ " not found!")])

/-- `AdminController.clear_database` (admin_controller.py, lines 98–106), as a
function of the database contents and the answer to the confirmation
dialog. -/
def clear_database (confirmAnswer : Bool) (db : List Student) :
    List Student × Bool × List Event :=
  if confirmAnswer then
    ([], true, [Event.displaySuccess "Database cleared successfully!"])
  else
    (db, false, [Event.displaySuccess "Operation cancelled"])

/-- Modelled from the spec: `StudentController._validate_password`, the
`PASSWORD_PATTERN` of `src/core/constants.py` (both absent from the sources) —
the password must start with an uppercase letter, contain at least five
letters, and end with three or more digits. -/
def validate_password (p : String) : Bool :=
  let cs := p.toList
  let letters := cs.takeWhile Char.isAlpha
  let rest := cs.dropWhile Char.isAlpha
  (match letters with
    | c :: _ => c.isUpper
    | [] => false) &&
  decide (5 ≤ letters.length) &&
  decide (3 ≤ rest.length) &&
  rest.all Char.isDigit

/-- Split a character list on a separator character. -/
def splitOnChar (c : Char) : List Char → List (List Char)
  | [] => [[]]
  | x :: xs =>
      if x = c then [] :: splitOnChar c xs
      else
        match splitOnChar c xs with
        | [] => [[x]]
        | y :: ys => (x :: y) :: ys

/-- Modelled from the spec: `StudentController._validate_email`
(`src/controllers/student_controller.py` is absent from the sources); the
spec requires an email-format check without fixing the pattern — modelled as
a nonempty local part, a single at-sign, and a domain containing a dot with
nonempty components. -/
def validate_email (email : String) : Bool :=
  match splitOnChar '@' email.toList with
  | [loc, domain] =>
      let parts := splitOnChar '.' domain
      decide (loc ≠ []) && decide (2 ≤ parts.length) &&
        parts.all (fun p => decide (p ≠ []))
  | _ => false

/-- `LoginView._handle_register` (src/views/flet_ui/login_view.py,
lines 218–262), as a function of the database contents and the form fields;
`newId` stands for the id the student model assigns at registration.  Returns
the new database contents, the boolean result and the view calls made
directly by this handler (the format validators of the student controller
report their own messages; their calls are not modelled here). -/
def handle_register (db : List Student) (newId name email password confirm : String) :
    List Student × Bool × List Event :=
  if name = "" ∨ email = "" ∨ password = "" ∨ confirm = "" then
    (db, false, [Event.displayError "All fields are required!"])
  else if password ≠ confirm then
    (db, false, [Event.displayError "Passwords do not match!"])
  else if !validate_email email then (db, false, [])
  else if !validate_password password then (db, false, [])
  else if (db_get_student_by_email db email).isSome then
    (db, false, [Event.displayError "Student already exists!"])
  else
    let student : Student :=
      { id := newId, name := name, email := email, password := password,
        subjects := [] }
    let r := db_add_student db student
    if r.2 then
      (r.1, true, [Event.displaySuccess "Registration successful! Please login."])
    else
      (r.1, false, [Event.displayError "Registration failed!"])

/-- `handle_change_confirm` inside `StudentView.display`
(src/views/flet_ui/student_view.py, lines 131–171), as a function of the
database contents, the logged-in student and the three dialog fields.
Returns the new database contents, the (possibly updated) student and the
view calls. -/
def handle_change_confirm (db : List Student) (student : Student)
    (old_password new_password confirm_password : String) :
    List Student × Student × List Event :=
  if old_password ≠ "" ∧ new_password ≠ "" ∧ confirm_password ≠ "" then
    if new_password ≠ confirm_password then
      (db, student, [Event.displayError "Passwords do not match!"])
    else if old_password ≠ student.password then
      (db, student, [Event.displayError "Old passwords error!"])
    else if new_password = student.password then
      (db, student, [Event.displayError "Old passwords cannot be used!"])
    else if !validate_password new_password then
      (db, student,
        [Event.displayError "Invalid password format! Must start with uppercase, contain at least 5 letters followed by 3+ digits"])
    else
      let updated := { student with password := new_password }
      (db_update_student db updated, updated,
        [Event.displaySuccess "Password changed successfully!"])
  else
    (db, student, [Event.displayError "All fields are required!"])

/-- Modelled from the spec: `Student.MAX_SUBJECTS` — the enrollment capacity
bound (`src/models/student.py` is absent from the sources; the spec does not
fix the value and the theorems do not depend on it). -/
def MAX_SUBJECTS : Nat := 4

/-- Modelled from the spec: `SubjectController.enrol_subject`
(`src/controllers/subject_controller.py` is absent from the sources) —
assigns a new subject with a fresh random mark and derived grade and appends
it; the randomly generated subject is passed in as `newSubject`. -/
def enrol_subject (student : Student) (newSubject : Subject) : Student :=
  { student with subjects := student.subjects ++ [newSubject] }

/-- `handle_enroll` inside `StudentView.display`
(src/views/flet_ui/student_view.py, lines 54–63): reject when the subject
count has reached `MAX_SUBJECTS`, otherwise enrol.  Returns the updated
student and the view calls. -/
def handle_enroll (student : Student) (newSubject : Subject) :
    Student × List Event :=
  if MAX_SUBJECTS ≤ student.subjects.length then
    (student,
      [Event.displayError ("Maximum subjects (" ++ toString MAX_SUBJECTS ++ ") already enrolled!")])
  else
    (enrol_subject student newSubject,
      [Event.displayEnrolmentResult newSubject])

/-- `AdminView._format_subject_details` (src/views/flet_ui/admin_view.py,
lines 450–467): when the student has subjects, the loop header
`for subject in subject.subjects` (line 467) reads the name `subject` before
it is bound, so the call raises; with no subjects the loop body is skipped
and the call succeeds. -/
def format_subject_details (student : Student) : Except String Unit :=
  if student.subjects.isEmpty then Except.ok ()
  else Except.error "NameError: name subject is not defined"

/-- The row-building loop of `AdminView.display_all_students`
(admin_view.py, lines 390–443): rows are built student by student; the first
exception aborts the loop. -/
def render_student_rows : List Student → Except String Unit
  | [] => Except.ok ()
  | s :: rest =>
      match format_subject_details s with
      | Except.error e => Except.error e
      | Except.ok _ => render_student_rows rest

/-- `AdminView.display_all_students` (admin_view.py, lines 376–448): an empty
list reports "No students found"; otherwise the rows are built inside a
`try`, and any exception is reported as "Error displaying students: ...". -/
def display_all_students (students : List Student) : List Event :=
  if students.isEmpty then [Event.displayError "No students found"]
  else
    match render_student_rows students with
    | Except.error e => [Event.displayError ("Error displaying students: " ++ e)]
    | Except.ok _ => [Event.displayAllStudents students]

/-- Python's `str.upper()` as used by `handle_choice`
(admin_controller.py, line 111): uppercase every character. -/
def toUpperModel (s : String) : String :=
  ⟨s.data.map Char.toUpper⟩

/-- The external collaborators consulted by `AdminController.handle_choice`:
the answer `confirm_action` returns for the clear-database confirmation and
the text `get_input` returns for the student-id prompt. -/
structure Env where
  confirmAnswer : Bool
  inputValue : String
deriving DecidableEq

/-- `AdminController.handle_choice` (admin_controller.py, lines 108–127)
together with `AdminMenuOption` (lines 9–22): the uppercased choice is looked
up among the enum values; since `_missing_` returns `None` for any other
value, the constructor raises `ValueError`, which the handler catches and
reports as "Invalid option".  Returns the continue/stop flag, the new
database contents and the view calls. -/
def handle_choice (env : Env) (db : List Student) (choice : String) :
    Bool × List Student × List Event :=
  let c := toUpperModel choice
  if c = "C" then
    let r := clear_database env.confirmAnswer db
    (true, r.1, r.2.2)
  else if c = "G" then (true, db, group_students db)
  else if c = "P" then (true, db, partition_students db)
  else if c = "R" then
    let r := remove_student db env.inputValue
    (true, r.1, r.2.2)
  else if c = "S" then (true, db, display_all_students db)
  else if c = "X" then (false, db, [])
  else (true, db, [Event.displayError "Invalid option"])

/-- C4: on an empty student collection, both `group_students` and
`partition_students` report the "No students found" error, produce no
grouping or partition output, and (as menu actions) leave the database
unchanged. -/
theorem empty_students_spec :
    group_students [] = [Event.displayError "No students found"] ∧
    partition_students [] = [Event.displayError "No students found"] ∧
    ∀ env : Env,
      handle_choice env [] "G" =
        (true, [], [Event.displayError "No students found"]) ∧
      handle_choice env [] "P" =
        (true, [], [Event.displayError "No students found"]) := by
  refine ⟨rfl, rfl, fun env => ⟨?_, ?_⟩⟩ <;> rfl

/-- C5: `remove_student` succeeds and deletes the matching student exactly
when a student with the given id exists; otherwise it fails, reports
"not found", and leaves the database contents unchanged. -/
theorem remove_student_spec (db : List Student) (sid : String) :
    ((∃ s ∈ db, s.id = sid) →
      remove_student db sid =
        (db.filter (fun s => decide (s.id ≠ sid)), true,
          [Event.displaySuccess ("Student " ++ sid ++ " removed successfully!")]) ∧
      ∀ s ∈ (remove_student db sid).1, s.id ≠ sid) ∧
    ((∀ s ∈ db, s.id ≠ sid) →
      remove_student db sid =
        (db, false, [Event.displayError ("Student " ++ sid ++ " not found!")])) := by
  constructor
  · intro hex
    have hany : db.any (fun s => decide (s.id = sid)) = true := by
      rcases hex with ⟨s, hs, hid⟩
      exact List.any_eq_true.mpr ⟨s, hs, by simpa using hid⟩
    refine ⟨by simp [remove_student, db_remove_student, hany], ?_⟩
    intro s hs
    have hmem : s ∈ db.filter (fun s => decide (s.id ≠ sid)) := by
      simpa [remove_student, db_remove_student, hany] using hs
    simpa using (List.mem_filter.mp hmem).2
  · intro hnone
    have hany : db.any (fun s => decide (s.id = sid)) = false := by
      simp only [List.any_eq_false, decide_eq_true_eq]
      exact hnone
    simp [remove_student, db_remove_student, hany]

/-- Witness for C5: removing `"S999"` from a store without that id fails,
reports "not found" and leaves the store unchanged. -/
theorem remove_student_spec_witness :
    remove_student [⟨"S1", "Alice", "alice", "Hello123", []⟩] "S999" =
      ([⟨"S1", "Alice", "alice", "Hello123", []⟩], false,
        [Event.displayError ("Student " ++ "S999" ++ " not found!")]) :=
  (remove_student_spec [⟨"S1", "Alice", "alice", "Hello123", []⟩] "S999").2
    (by decide)

/-- C6: when the email already belongs to a stored student, a registration
attempt never mutates the database and never succeeds (the stored student is
unaffected and no student is added); and when the attempt passes the
preceding field and format checks, it fails precisely with the
duplicate-email error. -/
theorem register_duplicate_email_spec (db : List Student)
    (newId name email password confirm : String)
    (hd : ∃ s ∈ db, s.email = email) :
    ((handle_register db newId name email password confirm).1 = db ∧
      (handle_register db newId name email password confirm).2.1 = false) ∧
    (name ≠ "" → email ≠ "" → password ≠ "" → confirm ≠ "" →
      password = confirm → validate_email email = true →
      validate_password password = true →
      handle_register db newId name email password confirm =
        (db, false, [Event.displayError "Student already exists!"])) := by
  have hsome : (db_get_student_by_email db email).isSome = true := by
    rcases hd with ⟨s, hs, hemail⟩
    rw [db_get_student_by_email, List.find?_isSome]
    exact ⟨s, hs, by simpa using hemail⟩
  constructor
  · unfold handle_register
    split_ifs with h1 h2 h3 h4 <;> simp_all
  · intro hn he hp hc hm hve hvp
    subst hm
    simp [handle_register, hn, he, hp, hve, hvp, hsome]

/-- Witness for C6: with a student whose email is `a@uni.edu` already stored,
registering `Bob` with the same email and a valid distinct password fails
with the duplicate-email error and the database is unchanged. -/
theorem register_duplicate_email_spec_witness :
    handle_register [⟨"S1", "Alice", "a@uni.edu", "Hello123", []⟩]
        "S2" "Bob" "a@uni.edu" "World123" "World123" =
      ([⟨"S1", "Alice", "a@uni.edu", "Hello123", []⟩], false,
        [Event.displayError "Student already exists!"]) :=
  (register_duplicate_email_spec [⟨"S1", "Alice", "a@uni.edu", "Hello123", []⟩]
      "S2" "Bob" "a@uni.edu" "World123" "World123" (by decide)).2
    (by decide) (by decide) (by decide) (by decide) (by decide)
    (by decide) (by decide)

/-- C7: a password-change request fails with an error and leaves both the
stored student and the database unchanged whenever the supplied old password
differs from the stored password, or the new password equals the old one, or
the new password does not satisfy the format pattern. -/
theorem change_password_guard_spec (db : List Student) (student : Student)
    (old npw confirm : String)
    (h : old ≠ student.password ∨ npw = old ∨ validate_password npw = false) :
    (handle_change_confirm db student old npw confirm).1 = db ∧
    (handle_change_confirm db student old npw confirm).2.1 = student ∧
    ∃ msg, (handle_change_confirm db student old npw confirm).2.2 =
      [Event.displayError msg] := by
  unfold handle_change_confirm
  split_ifs with h1 h2 h3 h4 h5 <;> simp_all

/-- Witness for C7: a change request whose old password `x` does not match
the stored password `Hello123` fails and changes neither the student nor the
database. -/
theorem change_password_guard_spec_witness :
    (handle_change_confirm [] ⟨"S1", "Alice", "alice", "Hello123", []⟩
        "x" "World123" "World123").1 = [] ∧
    (handle_change_confirm [] ⟨"S1", "Alice", "alice", "Hello123", []⟩
        "x" "World123" "World123").2.1 =
      ⟨"S1", "Alice", "alice", "Hello123", []⟩ ∧
    ∃ msg, (handle_change_confirm [] ⟨"S1", "Alice", "alice", "Hello123", []⟩
        "x" "World123" "World123").2.2 = [Event.displayError msg] :=
  change_password_guard_spec [] ⟨"S1", "Alice", "alice", "Hello123", []⟩
    "x" "World123" "World123" (Or.inl (by decide))

/-- C8: an enrollment attempt made when the subject count has reached
`MAX_SUBJECTS` is rejected with an error and leaves the subject list
unchanged; consequently the invariant `len(subjects) ≤ MAX_SUBJECTS` is
preserved by the enrollment operation. -/
theorem handle_enroll_capacity_spec (student : Student) (newSubject : Subject) :
    (student.subjects.length = MAX_SUBJECTS →
      handle_enroll student newSubject =
        (student,
          [Event.displayError ("Maximum subjects (" ++ toString MAX_SUBJECTS ++ ") already enrolled!")])) ∧
    (student.subjects.length ≤ MAX_SUBJECTS →
      (handle_enroll student newSubject).1.subjects.length ≤ MAX_SUBJECTS) := by
  constructor
  · intro hlen
    simp [handle_enroll, hlen]
  · intro hle
    by_cases hcap : MAX_SUBJECTS ≤ student.subjects.length
    · simpa [handle_enroll, hcap] using hle
    · simp only [handle_enroll, if_neg hcap, enrol_subject, List.length_append,
        List.length_singleton]
      omega

/-- Witness for C8: a student already enrolled in `MAX_SUBJECTS` subjects is
rejected and keeps the same subject list. -/
theorem handle_enroll_capacity_spec_witness :
    handle_enroll
        ⟨"S1", "Alice", "alice", "Hello123",
          [⟨"1", 50, "P"⟩, ⟨"2", 50, "P"⟩, ⟨"3", 50, "P"⟩, ⟨"4", 50, "P"⟩]⟩
        ⟨"5", 60, "P"⟩ =
      (⟨"S1", "Alice", "alice", "Hello123",
          [⟨"1", 50, "P"⟩, ⟨"2", 50, "P"⟩, ⟨"3", 50, "P"⟩, ⟨"4", 50, "P"⟩]⟩,
        [Event.displayError ("Maximum subjects (" ++ toString MAX_SUBJECTS ++ ") already enrolled!")]) :=
  (handle_enroll_capacity_spec
      ⟨"S1", "Alice", "alice", "Hello123",
        [⟨"1", 50, "P"⟩, ⟨"2", 50, "P"⟩, ⟨"3", 50, "P"⟩, ⟨"4", 50, "P"⟩]⟩
      ⟨"5", 60, "P"⟩).1 (by decide)

/-- C9: for every choice whose uppercased value is not one of C, G, P, R, S,
X, `handle_choice` reports "Invalid option", performs no other action (no
other view call, database unchanged) and returns `True`; it returns `False`
exactly for the exit choice, i.e. when the uppercased choice is "X". -/
theorem handle_choice_spec (env : Env) (db : List Student) (choice : String) :
    (toUpperModel choice ∉ (["C", "G", "P", "R", "S", "X"] : List String) →
      handle_choice env db choice =
        (true, db, [Event.displayError "Invalid option"])) ∧
    ((handle_choice env db choice).1 = false ↔ toUpperModel choice = "X") := by
  constructor
  · intro hmem
    simp only [List.mem_cons, List.not_mem_nil, or_false, not_or] at hmem
    obtain ⟨h1, h2, h3, h4, h5, h6⟩ := hmem
    simp [handle_choice, h1, h2, h3, h4, h5, h6]
  · simp only [handle_choice]
    split_ifs with h1 h2 h3 h4 h5 h6 <;> simp_all

/-- Witness for C9: the unrecognized choice `"q"` (uppercased `"Q"`) yields
the invalid-option error, leaves the database unchanged and returns true. -/
theorem handle_choice_spec_witness :
    handle_choice ⟨true, "S1"⟩ [] "q" =
      (true, [], [Event.displayError "Invalid option"]) :=
  (handle_choice_spec ⟨true, "S1"⟩ [] "q").1 (by decide)

/-- C10: whenever the input list contains a student with a non-empty subjects
collection, `AdminView.display_all_students` does not complete the table:
`_format_subject_details` evaluates the unbound name `subject` in the loop
header and raises, and the enclosing handler displays the
"Error displaying students" message instead. -/
theorem display_all_students_render_failure (students : List Student)
    (h : ∃ s ∈ students, s.subjects ≠ []) :
    display_all_students students =
      [Event.displayError
        ("Error displaying students: " ++ "NameError: name subject is not defined")] := by
  have hrender : render_student_rows students =
      Except.error "NameError: name subject is not defined" := by
    induction students with
    | nil =>
        rcases h with ⟨s, hs, _⟩
        cases hs
    | cons a rest ih =>
        by_cases ha : a.subjects.isEmpty
        · rcases h with ⟨s, hs, hsub⟩
          rcases List.mem_cons.mp hs with rfl | hs2
          · exact absurd (List.isEmpty_iff.mp ha) hsub
          · simp only [render_student_rows, format_subject_details, if_pos ha]
            exact ih ⟨s, hs2, hsub⟩
        · simp [render_student_rows, format_subject_details, ha]
  have hne : ¬ students.isEmpty = true := by
    rcases h with ⟨s, hs, _⟩
    simp [List.isEmpty_iff, List.ne_nil_of_mem hs]
  rw [display_all_students, if_neg hne, hrender]

/-- Witness for C10: a single student with one enrolled subject makes
`display_all_students` report the rendering error instead of the table. -/
theorem display_all_students_render_failure_witness :
    display_all_students [⟨"S1", "Alice", "alice", "Hello123", [⟨"SUB1", 90, "HD"⟩]⟩] =
      [Event.displayError
        ("Error displaying students: " ++ "NameError: name subject is not defined")] :=
  display_all_students_render_failure
    [⟨"S1", "Alice", "alice", "Hello123", [⟨"SUB1", 90, "HD"⟩]⟩]
    ⟨⟨"S1", "Alice", "alice", "Hello123", [⟨"SUB1", 90, "HD"⟩]⟩,
      by decide, by decide⟩

/-- Witness for C2: `group_students` applied to a singleton student list. -/
theorem group_students_spec_witness :
    ∃ gg, group_students [⟨"S1", "Alice", "alice", "Hello123", [⟨"SUB1", 90, "HD"⟩]⟩] =
        [Event.displayGradeGroups gg] ∧
      (gg.map Prod.snd).flatten.Perm
        [⟨"S1", "Alice", "alice", "Hello123", [⟨"SUB1", 90, "HD"⟩]⟩] ∧
      (∀ p ∈ gg, ∀ s ∈ p.2, student_grade s = p.1) ∧
      (∀ p ∈ gg, p.2.Sorted rAvg) ∧
      (∀ p ∈ gg, ∀ q : ℚ,
        List.Sublist (p.2.filter (fun s => decide (get_average_mark s = q)))
          [⟨"S1", "Alice", "alice", "Hello123", [⟨"SUB1", 90, "HD"⟩]⟩]) :=
  group_students_spec
    [⟨"S1", "Alice", "alice", "Hello123", [⟨"SUB1", 90, "HD"⟩]⟩] (by decide)

/-- Witness for C3: `partition_students` applied to a two-student list with
one passing and one failing student. -/
theorem partition_students_spec_witness :
    ∃ p f, partition_students
        [⟨"S1", "Alice", "alice", "Hello123", [⟨"SUB1", 90, "HD"⟩]⟩,
          ⟨"S2", "Bob", "bob", "World123", [⟨"SUB2", 40, "Z"⟩]⟩] =
        [Event.displayPartitioned p f] ∧
      (∀ s ∈ p, 50 ≤ get_average_mark s) ∧
      (∀ s ∈ f, get_average_mark s < 50) ∧
      (p ++ f).Perm
        [⟨"S1", "Alice", "alice", "Hello123", [⟨"SUB1", 90, "HD"⟩]⟩,
          ⟨"S2", "Bob", "bob", "World123", [⟨"SUB2", 40, "Z"⟩]⟩] ∧
      (∀ s ∈ p, s ∉ f) ∧
      p.Sorted rAvg ∧ f.Sorted rAvg ∧
      (∀ q : ℚ, List.Sublist (p.filter (fun s => decide (get_average_mark s = q)))
        [⟨"S1", "Alice", "alice", "Hello123", [⟨"SUB1", 90, "HD"⟩]⟩,
          ⟨"S2", "Bob", "bob", "World123", [⟨"SUB2", 40, "Z"⟩]⟩]) ∧
      (∀ q : ℚ, List.Sublist (f.filter (fun s => decide (get_average_mark s = q)))
        [⟨"S1", "Alice", "alice", "Hello123", [⟨"SUB1", 90, "HD"⟩]⟩,
          ⟨"S2", "Bob", "bob", "World123", [⟨"SUB2", 40, "Z"⟩]⟩]) :=
  partition_students_spec
    [⟨"S1", "Alice", "alice", "Hello123", [⟨"SUB1", 90, "HD"⟩]⟩,
      ⟨"S2", "Bob", "bob", "World123", [⟨"SUB2", 40, "Z"⟩]⟩] (by decide)

end StudentApp
